import Mathlib

/-!
Verification development for the my-tools repository.

The repository contains two entry points built around the same idea:
an Express HTTP server (`POST /ask`) that accepts a question plus an
uploaded markdown/text file, composes a prompt and forwards it to the
OpenAI chat-completions endpoint, and a CLI script that reads a local
markdown file and does the same.  This file gives a shallow embedding
of the request-processing pipeline of the HTTP server and of the CLI's
prompt composition, and proves the specification claims about them.
-/

namespace MyTools

/-! ## UTF-8 decoding with replacement

The server reads the uploaded document with `file.buffer.toString('utf-8')`.
Node's `Buffer.prototype.toString('utf-8')` is total: it never throws, and
decodes invalid byte sequences to U+FFFD following the WHATWG "maximal
subpart" replacement policy.  The decoder below embeds that behaviour. -/

/-- The Unicode replacement character U+FFFD emitted for invalid bytes. -/
def utf8Repl : Char := Char.ofNat 0xfffd

/-- Classification of a byte in the decoder's start state: either it decodes
to a character on its own (ASCII, or a replacement for an invalid lead byte),
or it opens a multi-byte sequence with an accumulated code point, a number of
continuation bytes still needed, and the admissible range of the next byte. -/
def utf8Classify (b : Nat) : Sum Char (Nat × Nat × Nat × Nat) :=
  if b ≤ 0x7f then Sum.inl (Char.ofNat b)
  else if 0xc2 ≤ b ∧ b ≤ 0xdf then Sum.inr (b % 0x20, 1, 0x80, 0xbf)
  else if 0xe0 ≤ b ∧ b ≤ 0xef then
    Sum.inr (b % 0x10, 2, if b = 0xe0 then 0xa0 else 0x80, if b = 0xed then 0x9f else 0xbf)
  else if 0xf0 ≤ b ∧ b ≤ 0xf4 then
    Sum.inr (b % 8, 3, if b = 0xf0 then 0x90 else 0x80, if b = 0xf4 then 0x8f else 0xbf)
  else Sum.inl utf8Repl

/-- WHATWG UTF-8 decode loop with U+FFFD replacement.  State: accumulated
code point, continuation bytes still needed, and the admissible lower/upper
bounds for the next continuation byte.  A continuation byte out of range
emits a replacement and reprocesses the byte in the start state. -/
def utf8DecodeLoop : List Nat → Nat → Nat → Nat → Nat → List Char
  | [], _, needed, _, _ => if needed = 0 then [] else [utf8Repl]
  | b :: rest, cp, needed, lower, upper =>
    if needed = 0 then
      match utf8Classify b with
      | Sum.inl c => c :: utf8DecodeLoop rest 0 0 0x80 0xbf
      | Sum.inr (cp2, n2, lo2, hi2) => utf8DecodeLoop rest cp2 n2 lo2 hi2
    else if lower ≤ b ∧ b ≤ upper then
      if needed = 1 then
        Char.ofNat (cp * 64 + b % 64) :: utf8DecodeLoop rest 0 0 0x80 0xbf
      else
        utf8DecodeLoop rest (cp * 64 + b % 64) (needed - 1) 0x80 0xbf
    else
      utf8Repl ::
        (match utf8Classify b with
         | Sum.inl c => c :: utf8DecodeLoop rest 0 0 0x80 0xbf
         | Sum.inr (cp2, n2, lo2, hi2) => utf8DecodeLoop rest cp2 n2 lo2 hi2)

/-- Embedding of `file.buffer.toString('utf-8')` (server, part_001 line 56):
total UTF-8 decoding of a byte buffer with U+FFFD replacement. -/
def bufferToStringUtf8 (bytes : List Nat) : String :=
  String.mk (utf8DecodeLoop bytes 0 0 0x80 0xbf)

/-! ## JavaScript string trimming

The response mapper calls `.trim()` on the provider's message content.
ECMAScript `String.prototype.trim` strips the WhiteSpace and LineTerminator
code points from both ends. -/

/-- The ECMAScript whitespace set used by `String.prototype.trim`. -/
def isJsWhitespace (c : Char) : Bool :=
  let n := c.toNat
  n = 0x9 || n = 0xa || n = 0xb || n = 0xc || n = 0xd || n = 0x20 || n = 0xa0 ||
    n = 0x1680 || (0x2000 ≤ n && n ≤ 0x200a) || n = 0x2028 || n = 0x2029 ||
    n = 0x202f || n = 0x205f || n = 0x3000 || n = 0xfeff

/-- Embedding of JavaScript `s.trim()`. -/
def jsTrim (s : String) : String :=
  String.mk (((s.data.dropWhile isJsWhitespace).reverse.dropWhile isJsWhitespace).reverse)

/-! ## Data model -/

/-- A multer in-memory uploaded file (the parts of the `req.file` object the
server reads: `originalname`, `mimetype`, `buffer`; `size` is derived as the
byte length of the buffer, which is how multer's memory storage sets it). -/
structure UploadedFile where
  originalname : String
  mimetype : String
  buffer : List Nat
deriving DecidableEq

/-- Multer's `file.size`: the byte length of the in-memory buffer. -/
def UploadedFile.size (f : UploadedFile) : Nat := f.buffer.length

/-- An inbound `POST /ask` submission: the `question` and `model` multipart
text fields (absent fields are `none`) and the uploaded `markdownFile`. -/
structure AskRequest where
  question : Option String
  file : Option UploadedFile
  model : Option String
deriving DecidableEq

/-- One chat message sent to the completion provider. -/
structure Message where
  role : String
  content : String
deriving DecidableEq

/-- The argument of `openai.chat.completions.create`: model and messages. -/
structure ChatRequest where
  model : String
  messages : List Message
deriving DecidableEq

/-- The `message` object of a returned choice; `content` may be null. -/
structure ChoiceMessage where
  content : Option String
deriving DecidableEq

/-- One returned choice; optional chaining in the source allows `message`
to be absent. -/
structure Choice where
  message : Option ChoiceMessage
deriving DecidableEq

/-- The provider's raw response; optional chaining in the source allows
`choices` to be absent. -/
structure Completion where
  choices : Option (List Choice)
deriving DecidableEq

/-- The JSON body the server sends: either an answer or an error message. -/
inductive JsonBody where
  | answer (text : String)
  | error (message : String)
deriving DecidableEq

/-- An HTTP response: status code and JSON body. -/
structure HttpResponse where
  status : Nat
  body : JsonBody
deriving DecidableEq

/-- Errors produced by the multer middleware before the route handler runs:
a `MulterError` (e.g. the file-size limit) or the plain `Error` thrown by
the `fileFilter`. -/
inductive JsError where
  | multerError (message : String)
  | filterError (message : String)
deriving DecidableEq

/-! ## The multer middleware (part_001 lines 19-30) -/

/-- Embedding of the `upload.single('markdownFile')` middleware: when a file
is sent, the `fileFilter` admits exactly the declared mimetypes
`text/markdown` and `text/plain` (rejecting with the filter's `Error`
message), and the `limits.fileSize` of `100 * 1024 * 1024` bytes rejects
larger files with multer's `LIMIT_FILE_SIZE` error (`File too large`).
The filter runs when the file part begins, before its bytes stream in, so
a disallowed mimetype is reported even for an oversized file.  When no
file is sent the middleware passes the request through. -/
def runMulter (file : Option UploadedFile) : Except JsError (Option UploadedFile) :=
  match file with
  | none => Except.ok none
  | some f =>
    if f.mimetype = "text/markdown" ∨ f.mimetype = "text/plain" then
      if f.size ≤ 100 * 1024 * 1024 then Except.ok (some f)
      else Except.error (JsError.multerError "File too large")
    else Except.error (JsError.filterError "Markdown(.md) 또는 Text(.txt) 파일만 업로드 가능합니다.")

/-- Embedding of the error-handling middleware (part_001 lines 103-115):
a `MulterError` gets status 400 with a prefixed message, any other error
gets status 400 with the error's own message. -/
def errorMiddleware : JsError → HttpResponse
  | JsError.multerError msg => ⟨400, JsonBody.error ("파일 업로드 오류: " ++ msg)⟩
  | JsError.filterError msg => ⟨400, JsonBody.error msg⟩

/-! ## Prompt composition -/

/-- The server's prompt template (part_001 lines 60-67): a fixed header,
the document text between fixed delimiter lines, then `질문: ` and the
question. -/
def finalPrompt (markdownContext question : String) : String :=
  "주어진 마크다운 내용을 바탕으로 다음 질문에 답해주세요.\n\n--- 마크다운 내용 시작 ---\n" ++
    markdownContext ++ "\n--- 마크다운 내용 끝 ---\n\n질문: " ++ question ++ "\n"

/-- The CLI's prompt template (part_000 lines 80-85): the document text
between the same delimiter lines, followed by a fixed instruction.  The
template does not reference the question argument at all. -/
def cliFinalPrompt (markdownContext : String) : String :=
  "\n--- 마크다운 내용 시작 ---\n" ++ markdownContext ++
    "\n--- 마크다운 내용 끝 ---\n주어진 마크다운에 해당하는 문제를 C99로 작성해줘\n"

/-- The fixed system message sent on every provider call (identical in the
server and the CLI). -/
def systemMessage : Message :=
  ⟨"system",
   "You are a helpful assistant designed to answer questions based on the provided text context."⟩

/-! ## Model selection and response mapping -/

/-- Embedding of `req.body.model || 'gpt-3.5-turbo'` (part_001 line 42):
an absent field is `undefined` and the empty string is falsy, so both fall
back to the default; any other string is used unchanged. -/
def chosenModel : Option String → String
  | none => "gpt-3.5-turbo"
  | some m => if m = "" then "gpt-3.5-turbo" else m

/-- The optional chain `completion.choices?.[0]?.message?.content`
(part_001 line 80) without the final `trim`: the first choice's message
content when every link of the chain is present. -/
def firstChoiceContent (c : Completion) : Option String :=
  match c.choices with
  | none => none
  | some [] => none
  | some (ch :: _) =>
    match ch.message with
    | none => none
    | some m => m.content

/-- Embedding of `completion.choices?.[0]?.message?.content?.trim()`
(part_001 line 80). -/
def extractResponseContent (c : Completion) : Option String :=
  (firstChoiceContent c).map jsTrim

/-! ## The request handler (part_001 lines 39-95)

The handler is embedded as a function of the provider (the
`openai.chat.completions.create` call, which may throw with a message or
return a `Completion`) and the parsed submission.  Besides the response it
returns the list of provider calls made while handling the request, so that
"the provider is never invoked" is a statement about the result. -/

/-- Embedding of the `POST /ask` route including the multer middleware and
the error-handling middleware.  Returns the HTTP response together with the
list of provider invocations performed. -/
def handleAsk (provider : ChatRequest → Except String Completion) (req : AskRequest) :
    HttpResponse × List ChatRequest :=
  match runMulter req.file with
  | Except.error e => (errorMiddleware e, [])
  | Except.ok fileOpt =>
    let model := chosenModel req.model
    match req.question with
    | none => (⟨400, JsonBody.error "질문을 입력해주세요."⟩, [])
    | some q =>
      if q = "" then (⟨400, JsonBody.error "질문을 입력해주세요."⟩, [])
      else
        match fileOpt with
        | none => (⟨400, JsonBody.error "마크다운 또는 텍스트 파일을 업로드해주세요."⟩, [])
        | some file =>
          let markdownContext := bufferToStringUtf8 file.buffer
          let chatReq : ChatRequest :=
            ⟨model, [systemMessage, ⟨"user", finalPrompt markdownContext q⟩]⟩
          match provider chatReq with
          | Except.error msg =>
            (⟨500, JsonBody.error ("처리 중 오류 발생: " ++ msg)⟩, [chatReq])
          | Except.ok completion =>
            match extractResponseContent completion with
            | none =>
              (⟨500, JsonBody.error "처리 중 오류 발생: API로부터 빈 응답을 받았습니다."⟩, [chatReq])
            | some s =>
              if s = "" then
                (⟨500, JsonBody.error "처리 중 오류 발생: API로부터 빈 응답을 받았습니다."⟩, [chatReq])
              else
                (⟨200, JsonBody.answer s⟩, [chatReq])

/-! ## Concrete fixtures used by witnesses and counterexamples -/

/-- A provider response carrying the text `It does X.`. -/
def stubCompletion : Completion := ⟨some [⟨some ⟨some "It does X."⟩⟩]⟩

/-- A stub provider that always answers `It does X.`. -/
def stubProviderOk : ChatRequest → Except String Completion :=
  fun _ => Except.ok stubCompletion

/-- A small markdown file whose bytes spell `# Title\nBody text.`. -/
def mdFile : UploadedFile :=
  ⟨"doc.md", "text/markdown",
   [35, 32, 84, 105, 116, 108, 101, 10, 66, 111, 100, 121, 32, 116, 101, 120, 116, 46]⟩

/-- A file whose declared media type is `application/pdf`. -/
def pdfFile : UploadedFile := ⟨"doc.pdf", "application/pdf", [37, 80, 68, 70]⟩

/-- A `text/plain` file one byte over the 100 MB ceiling. -/
def bigFile : UploadedFile :=
  ⟨"big.txt", "text/plain", List.replicate (100 * 1024 * 1024 + 1) 0⟩

/-- A `text/plain` file whose single byte `0xff` is not valid UTF-8. -/
def invalidUtf8File : UploadedFile := ⟨"bad.txt", "text/plain", [255]⟩

/-! ## Helper lemmas -/

/-- A file with an allowed declared media type at or under the size ceiling
passes the multer middleware unchanged. -/
theorem runMulter_ok_allowed (f : UploadedFile)
    (hmime : f.mimetype = "text/markdown" ∨ f.mimetype = "text/plain")
    (hsize : f.size ≤ 100 * 1024 * 1024) :
    runMulter (some f) = Except.ok (some f) := by
  rcases hmime with h | h <;> simp [runMulter, h, hsize]

/-- On a fully valid submission the handler reduces to the provider call on
the composed chat request followed by the response mapping. -/
theorem handleAsk_valid (provider : ChatRequest → Except String Completion)
    (q : String) (hq : q ≠ "") (f : UploadedFile)
    (hmime : f.mimetype = "text/markdown" ∨ f.mimetype = "text/plain")
    (hsize : f.size ≤ 100 * 1024 * 1024) (mf : Option String) :
    handleAsk provider ⟨some q, some f, mf⟩ =
      (let chatReq : ChatRequest :=
        ⟨chosenModel mf, [systemMessage, ⟨"user", finalPrompt (bufferToStringUtf8 f.buffer) q⟩]⟩
       match provider chatReq with
       | Except.error msg => (⟨500, JsonBody.error ("처리 중 오류 발생: " ++ msg)⟩, [chatReq])
       | Except.ok completion =>
         match extractResponseContent completion with
         | none => (⟨500, JsonBody.error "처리 중 오류 발생: API로부터 빈 응답을 받았습니다."⟩, [chatReq])
         | some s =>
           if s = "" then (⟨500, JsonBody.error "처리 중 오류 발생: API로부터 빈 응답을 받았습니다."⟩, [chatReq])
           else (⟨200, JsonBody.answer s⟩, [chatReq])) := by
  simp only [handleAsk, runMulter_ok_allowed f hmime hsize]
  simp [hq]

/-- Whatever the provider and the submission, a `JsonBody.answer` body is
never the empty string: emptiness is reclassified as an error beforehand. -/
theorem answer_nonempty (provider : ChatRequest → Except String Completion)
    (req : AskRequest) (a : String)
    (h : (handleAsk provider req).1.body = JsonBody.answer a) : a ≠ "" := by
  unfold handleAsk at h
  split at h
  · rename_i e heq
    cases e <;> simp [errorMiddleware] at h
  · split at h
    · simp at h
    · rename_i q hq1
      by_cases hq : q = ""
      · simp [hq] at h
      · rw [if_neg hq] at h
        split at h
        · simp at h
        · rename_i file hfo
          simp only [] at h
          split at h
          · simp at h
          · rename_i c hc
            split at h
            · simp at h
            · rename_i s hs
              by_cases hse : s = ""
              · simp [hse] at h
              · rw [if_neg hse] at h
                simp at h
                exact h ▸ hse

/-! ## Claim C1 -/

/-- Claim C1, counterexample: a question consisting of a single space is
accepted by the handler — `if (!question)` only rejects a falsy value, and
a whitespace-only string is truthy — so the pipeline reaches the provider
(the call list is non-empty) and answers with status 200 instead of a
client fault. -/
theorem whitespaceQuestion_not_rejected :
    (handleAsk stubProviderOk ⟨some " ", some mdFile, none⟩).1.status = 200 ∧
    (handleAsk stubProviderOk ⟨some " ", some mdFile, none⟩).2 ≠ [] := by
  constructor <;> decide

/-- Claim C1, amended: for every submission whose question field is absent
or equal to the empty string, the provider is never invoked and the
pipeline returns a 400 client fault; whenever the upload middleware accepts
the submission, that fault carries the missing-question message.  (A
whitespace-only question is not rejected; the code never trims it.) -/
theorem missingQuestion_rejected (provider : ChatRequest → Except String Completion)
    (req : AskRequest) (hq : req.question = none ∨ req.question = some "") :
    (handleAsk provider req).2 = [] ∧
    (handleAsk provider req).1.status = 400 ∧
    (∀ fo, runMulter req.file = Except.ok fo →
      (handleAsk provider req).1 = ⟨400, JsonBody.error "질문을 입력해주세요."⟩) := by
  rcases hm : runMulter req.file with e | fo
  · refine ⟨?_, ?_, ?_⟩
    · simp [handleAsk, hm]
    · simp only [handleAsk, hm]
      cases e <;> simp [errorMiddleware]
    · intro fo hfo
      simp at hfo
  · rcases hq with h | h <;>
      exact ⟨by simp [handleAsk, hm, h], by simp [handleAsk, hm, h],
        fun fo2 hfo => by simp [handleAsk, hm, h]⟩

/-- Witness for the amended C1: with question and file both absent, no
provider call is made and the missing-question client fault is returned. -/
theorem missingQuestion_rejected_witness :
    (handleAsk stubProviderOk ⟨none, none, none⟩).2 = [] ∧
    (handleAsk stubProviderOk ⟨none, none, none⟩).1.status = 400 ∧
    (handleAsk stubProviderOk ⟨none, none, none⟩).1 =
      ⟨400, JsonBody.error "질문을 입력해주세요."⟩ := by
  have h := missingQuestion_rejected stubProviderOk ⟨none, none, none⟩ (Or.inl rfl)
  exact ⟨h.1, h.2.1, h.2.2 none rfl⟩

/-! ## Claim C2 -/

/-- Claim C2, counterexample: at the concrete input (document `d`,
question `q`) the CLI's composed user message differs from the HTTP
pipeline's composed user message. -/
theorem cliPrompt_ne_httpPrompt_at_input :
    cliFinalPrompt "d" ≠ finalPrompt "d" "q" := by decide

/-- Claim C2, amended: the CLI does not compose its user message under the
HTTP pipeline's contract.  For every document text and question, the CLI's
composed user message differs from the HTTP pipeline's: the CLI template
opens with a bare newline and a delimiter line and appends a fixed
instruction in place of the question, while the HTTP template opens with an
instruction header and embeds the literal question. -/
theorem cliPrompt_differs (ctx q : String) : cliFinalPrompt ctx ≠ finalPrompt ctx q := by
  cases ctx with
  | mk cl =>
    cases q with
    | mk ql =>
      intro h
      have e1 : (cliFinalPrompt (String.mk cl)).data.head? = some (Char.ofNat 10) := rfl
      rw [h] at e1
      have e2 : (finalPrompt (String.mk cl) (String.mk ql)).data.head? =
        some (Char.ofNat 0xc8fc) := rfl
      rw [e2] at e1
      exact absurd e1 (by decide)

/-! ## Claim C4 -/

/-- Claim C4: a submission whose file declares a media type other than
`text/markdown` or `text/plain` is rejected by the upload middleware with
the 400 client fault carrying the unsupported-media-type message, and the
provider is never invoked. -/
theorem unsupportedMediaType_rejected (provider : ChatRequest → Except String Completion)
    (qf mf : Option String) (f : UploadedFile)
    (h1 : f.mimetype ≠ "text/markdown") (h2 : f.mimetype ≠ "text/plain") :
    (handleAsk provider ⟨qf, some f, mf⟩).1 =
      ⟨400, JsonBody.error "Markdown(.md) 또는 Text(.txt) 파일만 업로드 가능합니다."⟩ ∧
    (handleAsk provider ⟨qf, some f, mf⟩).2 = [] := by
  have hm : runMulter (some f) =
      Except.error (JsError.filterError "Markdown(.md) 또는 Text(.txt) 파일만 업로드 가능합니다.") := by
    simp [runMulter, h1, h2]
  constructor <;> simp [handleAsk, hm, errorMiddleware]

/-- Witness for C4: an `application/pdf` upload is rejected with the
unsupported-media-type client fault and no provider call. -/
theorem unsupportedMediaType_rejected_witness :
    pdfFile.mimetype ≠ "text/markdown" ∧ pdfFile.mimetype ≠ "text/plain" ∧
    (handleAsk stubProviderOk ⟨some "q", some pdfFile, none⟩).1 =
      ⟨400, JsonBody.error "Markdown(.md) 또는 Text(.txt) 파일만 업로드 가능합니다."⟩ ∧
    (handleAsk stubProviderOk ⟨some "q", some pdfFile, none⟩).2 = [] := by
  have h := unsupportedMediaType_rejected stubProviderOk (some "q") none pdfFile
    (by decide) (by decide)
  exact ⟨by decide, by decide, h.1, h.2⟩

/-! ## Claim C5 -/

/-- Claim C5, counterexample: a submission that is missing the question and
carries an unsupported media type is reported with the media-type error,
not the missing-question error — the multer middleware runs before the
handler's question check, so the claimed ordering (question first) fails. -/
theorem validationOrder_counterexample :
    (handleAsk stubProviderOk ⟨none, some pdfFile, none⟩).1 =
      ⟨400, JsonBody.error "Markdown(.md) 또는 Text(.txt) 파일만 업로드 가능합니다."⟩ ∧
    JsonBody.error "Markdown(.md) 또는 Text(.txt) 파일만 업로드 가능합니다." ≠
      JsonBody.error "질문을 입력해주세요." := by
  constructor <;> decide

/-- Claim C5, amended: the upload middleware's media-type (and size) checks
run before the handler's field checks, so a submission missing the question
and carrying an unsupported media type is reported as an unsupported media
type with no provider call; among the handler's own checks, question
presence is tested before file presence (a submission missing both is
reported as a missing question). -/
theorem validationOrder_amended (provider : ChatRequest → Except String Completion)
    (f : UploadedFile) (mf : Option String)
    (h1 : f.mimetype ≠ "text/markdown") (h2 : f.mimetype ≠ "text/plain") :
    ((handleAsk provider ⟨none, some f, mf⟩).1 =
       ⟨400, JsonBody.error "Markdown(.md) 또는 Text(.txt) 파일만 업로드 가능합니다."⟩ ∧
     (handleAsk provider ⟨none, some f, mf⟩).2 = []) ∧
    (handleAsk provider ⟨none, none, mf⟩).1 = ⟨400, JsonBody.error "질문을 입력해주세요."⟩ := by
  have hm : runMulter (some f) =
      Except.error (JsError.filterError "Markdown(.md) 또는 Text(.txt) 파일만 업로드 가능합니다.") := by
    simp [runMulter, h1, h2]
  refine ⟨⟨?_, ?_⟩, ?_⟩
  · simp [handleAsk, hm, errorMiddleware]
  · simp [handleAsk, hm, errorMiddleware]
  · simp [handleAsk, runMulter]

/-- Witness for the amended C5: the `application/pdf` upload with no
question yields the media-type error, and the empty submission yields the
missing-question error. -/
theorem validationOrder_amended_witness :
    (handleAsk stubProviderOk ⟨none, some pdfFile, none⟩).1 =
      ⟨400, JsonBody.error "Markdown(.md) 또는 Text(.txt) 파일만 업로드 가능합니다."⟩ ∧
    (handleAsk stubProviderOk ⟨none, none, none⟩).1 =
      ⟨400, JsonBody.error "질문을 입력해주세요."⟩ := by
  have h := validationOrder_amended stubProviderOk pdfFile none (by decide) (by decide)
  exact ⟨h.1.1, h.2⟩

/-! ## Claim C7 -/

/-- Claim C7: a file at or under the 100 MB ceiling is never rejected for
size by the upload middleware, while a file over the ceiling is rejected
with the 400 client fault carrying multer's file-too-large message and the
provider is never invoked. -/
theorem fileSize_limit (provider : ChatRequest → Except String Completion)
    (qf mf : Option String) (f : UploadedFile)
    (hmime : f.mimetype = "text/markdown" ∨ f.mimetype = "text/plain") :
    (f.size ≤ 100 * 1024 * 1024 → runMulter (some f) = Except.ok (some f)) ∧
    (100 * 1024 * 1024 < f.size →
      (handleAsk provider ⟨qf, some f, mf⟩).1 =
        ⟨400, JsonBody.error "파일 업로드 오류: File too large"⟩ ∧
      (handleAsk provider ⟨qf, some f, mf⟩).2 = []) := by
  constructor
  · intro hsize
    exact runMulter_ok_allowed f hmime hsize
  · intro hsize
    have hm : runMulter (some f) = Except.error (JsError.multerError "File too large") := by
      rcases hmime with h | h <;> simp [runMulter, h, Nat.not_le.mpr hsize]
    constructor <;> simp [handleAsk, hm, errorMiddleware]

/-- Witness for C7: the small markdown file passes the size check, and a
`text/plain` file one byte over 100 MB is rejected with the file-too-large
client fault. -/
theorem fileSize_limit_witness :
    (mdFile.size ≤ 100 * 1024 * 1024 ∧ runMulter (some mdFile) = Except.ok (some mdFile)) ∧
    (100 * 1024 * 1024 < bigFile.size ∧
      (handleAsk stubProviderOk ⟨some "q", some bigFile, none⟩).1 =
        ⟨400, JsonBody.error "파일 업로드 오류: File too large"⟩) := by
  have h1 := fileSize_limit stubProviderOk (some "q") none mdFile (Or.inl rfl)
  have h2 := fileSize_limit stubProviderOk (some "q") none bigFile (Or.inr rfl)
  have hsmall : mdFile.size ≤ 100 * 1024 * 1024 := by decide
  have hbig : 100 * 1024 * 1024 < bigFile.size := by
    show 100 * 1024 * 1024 < (List.replicate (100 * 1024 * 1024 + 1) 0).length
    rw [List.length_replicate]
    omega
  exact ⟨⟨hsmall, h1.1 hsmall⟩, ⟨hbig, (h2.2 hbig).1⟩⟩

/-! ## More helper lemmas -/

/-- On a fully valid submission the handler performs exactly one provider
call: the chosen model with the fixed system message and the composed user
message, whatever the provider then does. -/
theorem handleAsk_calls (provider : ChatRequest → Except String Completion)
    (q : String) (hq : q ≠ "") (f : UploadedFile)
    (hmime : f.mimetype = "text/markdown" ∨ f.mimetype = "text/plain")
    (hsize : f.size ≤ 100 * 1024 * 1024) (mf : Option String) :
    (handleAsk provider ⟨some q, some f, mf⟩).2 =
      [⟨chosenModel mf, [systemMessage, ⟨"user", finalPrompt (bufferToStringUtf8 f.buffer) q⟩]⟩] := by
  rw [handleAsk_valid provider q hq f hmime hsize mf]
  simp only []
  rcases hp : provider ⟨chosenModel mf,
      [systemMessage, ⟨"user", finalPrompt (bufferToStringUtf8 f.buffer) q⟩]⟩ with msg | c
  · simp
  · rcases he : extractResponseContent c with _ | s
    · simp [he]
    · by_cases hse : s = "" <;> simp [he, hse]

/-- Every provider call made by the handler uses the model selected by
`req.body.model || 'gpt-3.5-turbo'`. -/
theorem call_model_eq (provider : ChatRequest → Except String Completion)
    (req : AskRequest) (c : ChatRequest)
    (hc : c ∈ (handleAsk provider req).2) : c.model = chosenModel req.model := by
  unfold handleAsk at hc
  split at hc
  · simp at hc
  · split at hc
    · simp at hc
    · rename_i q hq1
      by_cases hq : q = ""
      · simp [hq] at hc
      · rw [if_neg hq] at hc
        split at hc
        · simp at hc
        · rename_i file hfo
          simp only [] at hc
          split at hc
          · simp at hc
            subst hc
            rfl
          · split at hc
            · simp at hc
              subst hc
              rfl
            · rename_i s hs
              by_cases hse : s = ""
              · simp [hse] at hc
                subst hc
                rfl
              · rw [if_neg hse] at hc
                simp at hc
                subst hc
                rfl

/-! ## Claim C3 -/

/-- Claim C3: on a valid submission, if the provider's response has no
usable first-choice content, or that content trims to the empty string, the
pipeline returns the 500 server fault with the empty-response message; if
the content trims to something non-empty, the pipeline returns it trimmed
with status 200; and no submission ever yields an empty answer text. -/
theorem responseMapper_contract (c : Completion) (q : String) (hq : q ≠ "")
    (f : UploadedFile)
    (hmime : f.mimetype = "text/markdown" ∨ f.mimetype = "text/plain")
    (hsize : f.size ≤ 100 * 1024 * 1024) (mf : Option String) :
    ((∀ s, firstChoiceContent c = some s → jsTrim s = "") →
       (handleAsk (fun _ => Except.ok c) ⟨some q, some f, mf⟩).1 =
         ⟨500, JsonBody.error "처리 중 오류 발생: API로부터 빈 응답을 받았습니다."⟩) ∧
    (∀ s, firstChoiceContent c = some s → jsTrim s ≠ "" →
       (handleAsk (fun _ => Except.ok c) ⟨some q, some f, mf⟩).1 =
         ⟨200, JsonBody.answer (jsTrim s)⟩) ∧
    (∀ provider a,
       (handleAsk provider ⟨some q, some f, mf⟩).1.body = JsonBody.answer a → a ≠ "") := by
  have hv := handleAsk_valid (fun _ => Except.ok c) q hq f hmime hsize mf
  refine ⟨?_, ?_, ?_⟩
  · intro hempty
    rw [hv]
    rcases hfc : firstChoiceContent c with _ | s
    · simp [extractResponseContent, hfc]
    · have hs0 : jsTrim s = "" := hempty s hfc
      simp [extractResponseContent, hfc, hs0]
  · intro s hs hne
    rw [hv]
    simp [extractResponseContent, hs, hne]
  · intro provider a h
    exact answer_nonempty provider _ a h

/-- Witness for C3: with the stub response `It does X.` the pipeline
returns status 200 and the trimmed text. -/
theorem responseMapper_contract_witness :
    jsTrim "It does X." ≠ "" ∧
    (handleAsk (fun _ => Except.ok stubCompletion)
        ⟨some "What does this do?", some mdFile, none⟩).1 =
      ⟨200, JsonBody.answer (jsTrim "It does X.")⟩ := by
  have h := responseMapper_contract stubCompletion "What does this do?" (by decide) mdFile
    (Or.inl rfl) (by decide) none
  exact ⟨by decide, h.2.1 "It does X." rfl (by decide)⟩

/-! ## Claim C6 -/

/-- Claim C6: on a valid submission the adapter performs exactly one
provider call carrying two messages — the fixed system message and the
composed user message — under the caller-selected model (or the default
when the field is absent); and when the provider returns content that is
non-empty after trimming, the pipeline responds 200 with the JSON body
carrying that text as the answer. -/
theorem adapter_and_success (provider : ChatRequest → Except String Completion)
    (q : String) (hq : q ≠ "") (f : UploadedFile)
    (hmime : f.mimetype = "text/markdown" ∨ f.mimetype = "text/plain")
    (hsize : f.size ≤ 100 * 1024 * 1024) (mf : Option String) :
    (handleAsk provider ⟨some q, some f, mf⟩).2 =
      [⟨chosenModel mf,
        [systemMessage, ⟨"user", finalPrompt (bufferToStringUtf8 f.buffer) q⟩]⟩] ∧
    (∀ c s,
       provider ⟨chosenModel mf,
         [systemMessage, ⟨"user", finalPrompt (bufferToStringUtf8 f.buffer) q⟩]⟩ =
           Except.ok c →
       extractResponseContent c = some s → s ≠ "" →
       (handleAsk provider ⟨some q, some f, mf⟩).1 = ⟨200, JsonBody.answer s⟩) := by
  refine ⟨handleAsk_calls provider q hq f hmime hsize mf, ?_⟩
  intro c s hp he hs
  rw [handleAsk_valid provider q hq f hmime hsize mf]
  simp [hp, he, hs]

/-- Witness for C6: the end-to-end scenario of the spec — the stub provider
answers `It does X.`, the call list is the two fixed messages under the
default model, and the response is 200 with that answer. -/
theorem adapter_and_success_witness :
    (handleAsk stubProviderOk ⟨some "What does this do?", some mdFile, none⟩).2 =
      [⟨chosenModel none, [systemMessage,
        ⟨"user", finalPrompt (bufferToStringUtf8 mdFile.buffer) "What does this do?"⟩]⟩] ∧
    (handleAsk stubProviderOk ⟨some "What does this do?", some mdFile, none⟩).1 =
      ⟨200, JsonBody.answer "It does X."⟩ := by
  have h := adapter_and_success stubProviderOk "What does this do?" (by decide) mdFile
    (Or.inl rfl) (by decide) none
  exact ⟨h.1, h.2 stubCompletion "It does X." rfl (by decide) (by decide)⟩

/-! ## Claim C8 -/

/-- Claim C8, counterexample: the byte `0xff` is not valid UTF-8, yet
decoding does not fail — it yields the replacement character — and the
pipeline composes the prompt, calls the provider and answers 200; no
IOError or server fault arises. -/
theorem utf8_decoding_counterexample :
    bufferToStringUtf8 [255] = String.mk [Char.ofNat 0xfffd] ∧
    (handleAsk stubProviderOk ⟨some "q", some invalidUtf8File, none⟩).1.status = 200 ∧
    (handleAsk stubProviderOk ⟨some "q", some invalidUtf8File, none⟩).2 ≠ [] := by
  refine ⟨by decide, by decide, by decide⟩

/-- Claim C8, amended: decoding the uploaded buffer never fails.
`Buffer.toString('utf-8')` is total — invalid byte sequences decode to
U+FFFD replacement characters — so for every byte buffer, valid UTF-8 or
not, the prompt is composed from the decoded text and sent to the
provider; no IOError path exists for decoding. -/
theorem decode_never_fails (provider : ChatRequest → Except String Completion)
    (q : String) (hq : q ≠ "") (name mime : String) (bytes : List Nat)
    (hmime : mime = "text/markdown" ∨ mime = "text/plain")
    (hsize : bytes.length ≤ 100 * 1024 * 1024) (mf : Option String) :
    (handleAsk provider ⟨some q, some (⟨name, mime, bytes⟩ : UploadedFile), mf⟩).2 =
      [⟨chosenModel mf,
        [systemMessage, ⟨"user", finalPrompt (bufferToStringUtf8 bytes) q⟩]⟩] :=
  handleAsk_calls provider q hq ⟨name, mime, bytes⟩ hmime hsize mf

/-- Witness for the amended C8: the invalid-UTF-8 upload still produces
exactly one provider call whose user message embeds the replacement-decoded
text. -/
theorem decode_never_fails_witness :
    (handleAsk stubProviderOk ⟨some "q", some invalidUtf8File, none⟩).2 =
      [⟨chosenModel none,
        [systemMessage, ⟨"user", finalPrompt (bufferToStringUtf8 [255]) "q"⟩]⟩] :=
  decode_never_fails stubProviderOk "q" (by decide) "bad.txt" "text/plain" [255]
    (Or.inr rfl) (by decide) none

/-! ## Claim C9 -/

/-- Claim C9: prompt composition is a deterministic pure function — two
invocations on identical document bytes and identical question text yield
identical prompt strings, with no dependence on any other state. -/
theorem prompt_deterministic (b1 b2 : List Nat) (q1 q2 : String)
    (hb : b1 = b2) (hq : q1 = q2) :
    finalPrompt (bufferToStringUtf8 b1) q1 = finalPrompt (bufferToStringUtf8 b2) q2 := by
  rw [hb, hq]

/-- Witness for C9 at a concrete document and question. -/
theorem prompt_deterministic_witness :
    finalPrompt (bufferToStringUtf8 [104, 105]) "q" =
      finalPrompt (bufferToStringUtf8 [104, 105]) "q" :=
  prompt_deterministic [104, 105] [104, 105] "q" "q" rfl rfl

/-! ## Claim C10 -/

/-- Claim C10: a present-but-empty model field behaves exactly like an
absent one — the whole pipeline result is identical and the default model
is `gpt-3.5-turbo` — while every non-empty model string is used unchanged
in the provider call. -/
theorem model_selection (provider : ChatRequest → Except String Completion) :
    (∀ qf ff, handleAsk provider ⟨qf, ff, some ""⟩ = handleAsk provider ⟨qf, ff, none⟩) ∧
    chosenModel none = "gpt-3.5-turbo" ∧
    (∀ m, m ≠ "" → chosenModel (some m) = m) ∧
    (∀ qf ff m c, m ≠ "" → c ∈ (handleAsk provider ⟨qf, ff, some m⟩).2 → c.model = m) := by
  refine ⟨fun qf ff => rfl, rfl, fun m hm => if_neg hm, ?_⟩
  intro qf ff m c hm hc
  rw [call_model_eq provider ⟨qf, ff, some m⟩ c hc]
  exact if_neg hm

/-- Witness for C10: the empty model field gives the same pipeline result
as no model field, and a concrete non-empty model string is kept. -/
theorem model_selection_witness :
    handleAsk stubProviderOk ⟨some "q", some mdFile, some ""⟩ =
      handleAsk stubProviderOk ⟨some "q", some mdFile, none⟩ ∧
    chosenModel (some "gpt-4") = "gpt-4" := by
  have h := model_selection stubProviderOk
  exact ⟨h.1 (some "q") (some mdFile), h.2.2.1 "gpt-4" (by decide)⟩

end MyTools
